import Mathlib

/-!
Shallow embedding of the Sagemcom/Ziggo router client
(`src/sagemcom_mcp/client.py`): the port-forwarding rule model, the REST
client's session logic and the pure helper functions.

HTTP traffic is modelled by passing the outcome of each request as an
explicit parameter; a Python exception that escapes the client boundary
(the `ValueError` raised by `_get_auth_headers`) is modelled with `Except`.
Strings are ASCII in this development, matching every string the client
manipulates.
-/

namespace Sagemcom

/-- Outcome of one HTTP request: `ok` is a 2xx response with parsed body
`α`; `err` is any `requests.RequestException` (connection error, timeout,
non-2xx status surfaced by `raise_for_status`, or JSON parse failure). -/
inductive HttpResult (α : Type) where
  | ok (val : α)
  | err
deriving DecidableEq

/-- True exactly when the request returned 2xx (no exception raised). -/
def HttpResult.succeeded {α : Type} : HttpResult α → Bool
  | .ok _ => true
  | .err => false

/-- Python truthiness of an optional string: `None` and `""` are falsy. -/
def optStrTruthy : Option String → Bool
  | none => false
  | some s => decide (s ≠ "")

/-- Python `str.replace(old, new)` for the single-character substitutions
the client performs (`'_' → '/'` and `'/' → '_'`). -/
def pyReplaceChar (a b : Char) (s : String) : String :=
  String.mk (s.data.map (fun c => if c = a then b else c))

/-- ASCII fragment of Python `str.lower()`. -/
def pyLower (s : String) : String :=
  String.mk (s.data.map Char.toLower)

/-- The exception the client lets escape: `_get_auth_headers` raises
`ValueError("Not authenticated - call authenticate() first")` when no
(truthy) token is held, and no handler in the client catches it. -/
inductive PyError where
  | notAuthenticated
deriving DecidableEq

/-- The mutable session fields of `SagemcomRestClient`: `self.token` and
`self.user_id` (both initialised to `None` in `__init__`). -/
structure ClientState where
  token : Option String
  userId : Option String
deriving DecidableEq

/-- The dataclass `PortForwardingRule` (client.py lines 18-26). -/
structure PortForwardingRule where
  name : String
  local_address : String
  local_port : Int
  external_port : Int
  protocol : String
  enabled : Bool := true
deriving DecidableEq

/-- The inner `rule` object of the router's wire shape.  Every field is
optional because the parser reads each one with `dict.get`; `none` models
an absent key. -/
structure WireRule where
  localAddress : Option String
  localStartPort : Option Int
  localEndPort : Option Int
  externalStartPort : Option Int
  externalEndPort : Option Int
  protocol : Option String
  enable : Option Bool
deriving DecidableEq

/-- One element of the wire rules list: a dict with an optional `id` key
and an optional `rule` key (`rule = none` models an item dict without a
`"rule"` key, which `get_port_forwards` skips). -/
structure WireItem where
  id : Option Int
  rule : Option WireRule
deriving DecidableEq

/-- `PortForwardingRule.to_rest_payload` (client.py lines 28-30): the body
of the `"rule"` object it builds.  Each port is duplicated into an equal
start/end pair and the protocol is lower-cased. -/
def PortForwardingRule.to_rest_payload (r : PortForwardingRule) : WireRule :=
  { localAddress := some r.local_address
    localStartPort := some r.local_port
    localEndPort := some r.local_port
    externalStartPort := some r.external_port
    externalEndPort := some r.external_port
    protocol := some (pyLower r.protocol)
    enable := some r.enabled }

/-- The shapes the value under the response's `"portforwarding"` key can
take, as distinguished by `get_port_forwards` (client.py lines 135-141):
a dict carrying a `"rules"` list, a dict without that key, a bare list,
some other value, or no `"portforwarding"` key at all. -/
inductive Envelope where
  | nested (rules : List WireItem)
  | nestedMissingRules
  | bareList (rules : List WireItem)
  | otherValue
  | missingKey
deriving DecidableEq

/-- The `rules_list` value `get_port_forwards` extracts from the envelope:
the nested list when present, the bare list fallback, `[]` otherwise. -/
def Envelope.rulesList : Envelope → List WireItem
  | .nested rs => rs
  | .bareList rs => rs
  | _ => []

/-- Rendering of the optional `id` inside the fabricated name: Python's
`rule_item.get('id', 'Unknown')` interpolated into `f"Rule ..."`. -/
def idText : Option Int → String
  | some n => toString n
  | none => "Unknown"

/-- The normalized record `get_port_forwards` builds for one wire item
(client.py lines 146-151). -/
structure FormattedRule where
  id : Option Int
  name : String
  localAddress : Option String
  localPort : Option Int
  externalPort : Option Int
  protocol : String
  enabled : Bool
deriving DecidableEq

/-- The per-item transformation of `get_port_forwards`: items lacking a
`"rule"` key are skipped; otherwise the fields are read with the defaults
the code supplies (`''` for protocol, `False` for enable) and the protocol
separator is rewritten `'_' → '/'`. -/
def formatItem (it : WireItem) : Option FormattedRule :=
  it.rule.map (fun rd =>
    { id := it.id
      name := "Rule " ++ idText it.id
      localAddress := rd.localAddress
      localPort := rd.localStartPort
      externalPort := rd.externalStartPort
      protocol := pyReplaceChar '_' '/' (rd.protocol.getD "")
      enabled := rd.enable.getD false })

/-- `SagemcomRestClient.get_port_forwards` (client.py lines 125-157).
Building the auth headers happens before the request is issued, and the
`ValueError` it raises on a falsy token is not a `requests.RequestException`,
so it escapes; a transport failure is caught and degrades to `[]`. -/
def get_port_forwards (tok : Option String) (resp : HttpResult Envelope) :
    Except PyError (List FormattedRule) :=
  if optStrTruthy tok then
    match resp with
    | .ok env => .ok (env.rulesList.filterMap formatItem)
    | .err => .ok []
  else .error .notAuthenticated

/-- `SagemcomRestClient.add_port_forward` (client.py lines 159-172):
true iff the POST succeeds; transport failure degrades to false; a falsy
token raises before any request. -/
def add_port_forward (tok : Option String) (_rule : PortForwardingRule)
    (resp : HttpResult Unit) : Except PyError Bool :=
  if optStrTruthy tok then
    match resp with
    | .ok _ => .ok true
    | .err => .ok false
  else .error .notAuthenticated

/-- The reconstructed inner rule object of the DELETE payload
(client.py line 217): the normalized fields translated back to wire form,
protocol separator `'/' → '_'`, with an explicit `readOnly: false`. -/
structure DeleteWireRule where
  enable : Bool
  externalStartPort : Option Int
  externalEndPort : Option Int
  protocol : String
  localStartPort : Option Int
  localEndPort : Option Int
  localAddress : Option String
  readOnly : Bool
deriving DecidableEq

/-- One element of the DELETE payload's rules list: the rule id together
with the reconstructed rule body. -/
structure DeleteItem where
  id : Option Int
  rule : DeleteWireRule
deriving DecidableEq

/-- The DELETE request body: the same list envelope used for listing,
i.e. a JSON object `portforwarding` holding an object with a `rules`
list. -/
structure DeleteEnvelope where
  rules : List DeleteItem
deriving DecidableEq

/-- The wire-form reconstruction of one normalized record, as built by
`_delete_port_forward_rule` (client.py line 217). -/
def deleteItemOf (r : FormattedRule) : DeleteItem :=
  { id := r.id
    rule := { enable := r.enabled
              externalStartPort := r.externalPort
              externalEndPort := r.externalPort
              protocol := pyReplaceChar '/' '_' r.protocol
              localStartPort := r.localPort
              localEndPort := r.localPort
              localAddress := r.localAddress
              readOnly := false } }

/-- `SagemcomRestClient._delete_port_forward_rule` (client.py lines
213-229).  The result carries, besides the boolean outcome, the DELETE
payload that was put on the wire (`none` would mean no request was
attempted; this helper always attempts one unless the token is falsy, in
which case the `ValueError` escapes before any request). -/
def delete_port_forward_rule (tok : Option String) (r : FormattedRule)
    (resp : HttpResult Unit) : Except PyError (Bool × Option DeleteEnvelope) :=
  if optStrTruthy tok then
    match resp with
    | .ok _ => .ok (true, some ⟨[deleteItemOf r]⟩)
    | .err => .ok (false, some ⟨[deleteItemOf r]⟩)
  else .error .notAuthenticated

/-- `SagemcomRestClient.remove_port_forward_by_port` (client.py lines
191-211): re-fetches the rule list, filters by external port, refuses on
zero or multiple matches, and deletes the single match.  The second
result component is the DELETE payload issued (`none` when no DELETE was
attempted). -/
def remove_port_forward_by_port (tok : Option String)
    (listResp : HttpResult Envelope) (external_port : Int)
    (delResp : HttpResult Unit) : Except PyError (Bool × Option DeleteEnvelope) :=
  match get_port_forwards tok listResp with
  | .error e => .error e
  | .ok rules =>
    match rules.filter (fun r => decide (r.externalPort = some external_port)) with
    | [] => .ok (false, none)
    | [r] => delete_port_forward_rule tok r delResp
    | _ :: _ :: _ => .ok (false, none)

/-- `SagemcomRestClient.remove_port_forward_by_name` (client.py lines
174-189): deletes the first rule whose fabricated name matches, failing
without a DELETE when none does. -/
def remove_port_forward_by_name (tok : Option String)
    (listResp : HttpResult Envelope) (rule_name : String)
    (delResp : HttpResult Unit) : Except PyError (Bool × Option DeleteEnvelope) :=
  match get_port_forwards tok listResp with
  | .error e => .error e
  | .ok rules =>
    match rules.find? (fun r => decide (r.name = rule_name)) with
    | none => .ok (false, none)
    | some r => delete_port_forward_rule tok r delResp

/-- `SagemcomRestClient.remove_port_forward` (client.py lines 231-233):
backward-compatibility alias for removal by name. -/
def remove_port_forward (tok : Option String) (listResp : HttpResult Envelope)
    (rule_name : String) (delResp : HttpResult Unit) :
    Except PyError (Bool × Option DeleteEnvelope) :=
  remove_port_forward_by_name tok listResp rule_name delResp

/-- `SagemcomRestClient.logout` (client.py lines 241-261): with a falsy
token it returns true immediately without touching the state; otherwise it
clears token and user id and returns true whether or not the DELETE
request raised (the status code is never checked). -/
def logout (st : ClientState) (_resp : HttpResult Unit) : ClientState × Bool :=
  if optStrTruthy st.token then (⟨none, none⟩, true) else (st, true)

/-- The `created` object of the login response, read with `dict.get`:
either field may be absent. -/
structure AuthCreated where
  token : Option String
  userId : Option String
deriving DecidableEq

/-- The parsed login response body: `created = none` models a body without
a `"created"` key (the code substitutes `{}`, so both fields read as
`None`). -/
structure AuthResponse where
  created : Option AuthCreated
deriving DecidableEq

/-- `SagemcomRestClient.authenticate` (client.py lines 92-117), with the
resolved password and the HTTP outcome as parameters.  A falsy password
short-circuits to false before any request; a transport or parse failure
is caught, leaving the state untouched; a parsed response always has both
session fields assigned from `created`, and the result is the truthiness
of the new token. -/
def authenticate (st : ClientState) (pw : Option String)
    (resp : HttpResult AuthResponse) : ClientState × Bool :=
  if optStrTruthy pw then
    match resp with
    | .err => (st, false)
    | .ok r =>
      let c := r.created.getD ⟨none, none⟩
      (⟨c.token, c.userId⟩, optStrTruthy c.token)
  else (st, false)

/-- Outcome of the 1Password CLI invocation inside
`_get_password_from_1password`: `err` covers `CalledProcessError`, JSON
decode failure and a missing `op` binary; `ok v` is a parsed JSON object
whose `"value"` field is `v` (absent key modelled as `none`). -/
inductive CliResult where
  | ok (value : Option String)
  | err
deriving DecidableEq

/-- `SagemcomRestClient._get_password_from_1password` (client.py lines
77-85). -/
def get_password_from_1password : CliResult → Option String
  | .ok v => v
  | .err => none

/-- `SagemcomRestClient._get_password` (client.py lines 87-90), over the
process environment and the 1Password lookup.  `os.getenv(key, default)`
returns the default only when the variable is unset, so the environment
variable takes precedence and the 1Password item name falls back to
`"Ziggo"`. -/
def get_password (env : String → Option String) (cli : String → CliResult) :
    Option String :=
  match env "SAGEMCOM_MODEM_PASSWORD" with
  | some v => some v
  | none => get_password_from_1password (cli ((env "SAGEMCOM_ONEPASSWORD_ITEM").getD "Ziggo"))

/-- `SagemcomRestClient.__init__` (client.py lines 65-71): the only
constructor arguments are host and port; the host falls back through
Python `or` (truthiness) to the `SAGEMCOM_MODEM_IP` variable and then to
a fixed default.  No password can be supplied to the client. -/
def initClient (hostArg : Option String) (envModemIp : Option String) :
    ClientState × String :=
  let host :=
    match hostArg with
    | some h => if h = "" then envModemIp.getD "192.168.178.1" else h
    | none => envModemIp.getD "192.168.178.1"
  (⟨none, none⟩, host)

/-- ASCII fragment of Python `str.isdigit`: nonempty and all decimal
digits. -/
def pyIsdigit (s : String) : Bool :=
  !s.data.isEmpty && s.data.all (fun c => c.isDigit)

/-- Numeric value of a digit string (what Python `int` returns on a
string `str.isdigit` accepts). -/
def digitsToNat (cs : List Char) : Nat :=
  cs.foldl (fun a c => 10 * a + (c.toNat - 48)) 0

/-- `expand_ip_shorthand` (client.py lines 277-281). -/
def expand_ip_shorthand (ip : String) : String :=
  if pyIsdigit ip && decide (1 ≤ digitsToNat ip.data) && decide (digitsToNat ip.data ≤ 254)
  then "192.168.178." ++ ip
  else ip

/-- Python whitespace characters stripped by `int()` around a numeric
string (ASCII fragment). -/
def pyWs (c : Char) : Bool :=
  c = ' ' || c = '\t' || c = '\n' || c = '\r' || c = '\x0b' || c = '\x0c'

/-- Characters of a string with surrounding whitespace removed. -/
def stripWs (cs : List Char) : List Char :=
  ((cs.dropWhile pyWs).reverse.dropWhile pyWs).reverse

/-- State machine for Python's digit-group grammar inside `int()`: digits
with single underscores allowed only between digits. -/
inductive UState where
  | start
  | digit
  | under
deriving DecidableEq

/-- One transition of the digit-group state machine (`none` is the reject
state). -/
def ustep : Option UState → Char → Option UState
  | none, _ => none
  | some .start, c => if c.isDigit then some .digit else none
  | some .digit, c =>
    if c.isDigit then some .digit
    else if c = '_' then some .under else none
  | some .under, c => if c.isDigit then some .digit else none

/-- Acceptance of Python's underscored digit group: nonempty, starts and
ends with a digit, underscores single and between digits. -/
def underscoredOk (cs : List Char) : Bool :=
  decide (cs.foldl ustep (some UState.start) = some UState.digit)

/-- Value of an accepted digit group (underscores ignored). -/
def parseUnderscored (cs : List Char) : Option Nat :=
  if underscoredOk cs then some (digitsToNat (cs.filter (fun c => !(c = '_' : Bool)))) else none

/-- Python `int(s)` on a string (ASCII fragment): optional surrounding
whitespace, an optional sign, then an underscored digit group;
`none` models the `ValueError` raised otherwise. -/
def pyIntOfStr (s : String) : Option Int :=
  match stripWs s.data with
  | '+' :: rest => (parseUnderscored rest).map (fun n => (n : Int))
  | '-' :: rest => (parseUnderscored rest).map (fun n => -(n : Int))
  | cs => (parseUnderscored cs).map (fun n => (n : Int))

/-- The `Union[int, str]` argument of `validate_port`, plus `None`
(the unit tests pass it and `int(None)` raises `TypeError`). -/
inductive PortInput where
  | intVal (n : Int)
  | strVal (s : String)
  | noneVal
deriving DecidableEq

/-- Python `int(port)` over the modelled inputs: identity on ints, string
parsing on strings, failure (`TypeError`) on `None`. -/
def pyInt : PortInput → Option Int
  | .intVal n => some n
  | .strVal s => pyIntOfStr s
  | .noneVal => none

/-- `validate_port` (client.py lines 284-290). -/
def validate_port (p : PortInput) : Bool :=
  match pyInt p with
  | some n => decide (1 ≤ n) && decide (n ≤ 65535)
  | none => false

/-- Claim C7: `validate_port(p)` returns true iff `p` is
integer-representable with value in `[1, 65535]`, and false on every input
that is not integer-representable; grounded on the unit-test inputs. -/
theorem validate_port_iff :
    (∀ p : PortInput, validate_port p = true ↔
      ∃ n, pyInt p = some n ∧ 1 ≤ n ∧ n ≤ 65535) ∧
    validate_port (.intVal 80) = true ∧
    validate_port (.strVal "8080") = true ∧
    validate_port (.intVal 1) = true ∧
    validate_port (.intVal 65535) = true ∧
    validate_port (.intVal 0) = false ∧
    validate_port (.intVal 65536) = false ∧
    validate_port (.strVal "abc") = false ∧
    validate_port .noneVal = false := by
  refine ⟨?_, by decide, by decide, by decide, by decide, by decide, by decide,
    by decide, by decide⟩
  intro p
  cases hp : pyInt p <;> simp [validate_port, hp]

/-- Witness for C7: the characterization applied at the concrete input 80. -/
theorem validate_port_iff_witness :
    ∃ n, pyInt (.intVal 80) = some n ∧ 1 ≤ n ∧ n ≤ 65535 :=
  (validate_port_iff.1 (.intVal 80)).mp (by decide)

/-- Claim C8: `expand_ip_shorthand` maps `"100"` to `"192.168.178.100"`,
is the identity on a dotted IPv4 string, and is the identity on every
non-numeric string and on every numeric string out of the range 1..254. -/
theorem expand_ip_shorthand_spec :
    expand_ip_shorthand "100" = "192.168.178.100" ∧
    expand_ip_shorthand "192.168.1.50" = "192.168.1.50" ∧
    (∀ ip : String, pyIsdigit ip = false → expand_ip_shorthand ip = ip) ∧
    (∀ ip : String, pyIsdigit ip = true →
      digitsToNat ip.data < 1 ∨ 254 < digitsToNat ip.data →
      expand_ip_shorthand ip = ip) := by
  refine ⟨by decide, by decide, ?_, ?_⟩
  · intro ip h
    simp [expand_ip_shorthand, h]
  · intro ip h hout
    unfold expand_ip_shorthand
    rw [if_neg]
    simp only [h, Bool.true_and, Bool.and_eq_true, decide_eq_true_eq]
    omega

/-- Witness for C8: the identity branches applied at concrete inputs. -/
theorem expand_ip_shorthand_spec_witness :
    expand_ip_shorthand "invalid" = "invalid" ∧ expand_ip_shorthand "256" = "256" :=
  ⟨expand_ip_shorthand_spec.2.2.1 "invalid" (by decide),
   expand_ip_shorthand_spec.2.2.2 "256" (by decide) (by decide)⟩

/-- Counterexample to C9 as stated: a client holding a leftover user id
but no token (reachable when a login response carries a `userId` but no
token).  `logout` returns true but does not clear the user id. -/
theorem logout_counterexample :
    (logout ⟨none, some "u"⟩ (.ok ())).2 = true ∧
    ((logout ⟨none, some "u"⟩ (.ok ())).1).userId = some "u" := by
  decide

/-- Claim C9 (amended): `logout` always returns true; for every outcome of
the HTTP request it clears token and user id whenever the client holds a
truthy token, and leaves the state untouched (returning true immediately)
when it does not. -/
theorem logout_spec :
    ∀ (st : ClientState) (resp : HttpResult Unit),
      (logout st resp).2 = true ∧
      (optStrTruthy st.token = true → (logout st resp).1 = ⟨none, none⟩) ∧
      (optStrTruthy st.token = false → (logout st resp).1 = st) := by
  intro st resp
  cases h : optStrTruthy st.token <;> simp [logout, h]

/-- Witness for C9: a logged-in client is fully cleared on logout even
when the logout request fails. -/
theorem logout_spec_witness :
    (logout ⟨some "t", some "u"⟩ .err).1 = ⟨none, none⟩ :=
  (logout_spec ⟨some "t", some "u"⟩ .err).2.1 (by decide)

/-- Counterexample to C2 as stated: a client already holding a token from
an earlier successful login keeps it across an authenticate that fails
with a transport error, so a failed `authenticate()` can leave a token
set. -/
theorem authenticate_counterexample :
    (authenticate ⟨some "old", some "u"⟩ (some "pw") .err).2 = false ∧
    ((authenticate ⟨some "old", some "u"⟩ (some "pw") .err).1).token = some "old" := by
  decide

/-- Claim C2 (amended): `authenticate` returns true and retains
token/userId from the response's `created` object exactly when a password
was resolved, the HTTP call succeeded and the response carries a truthy
token; on any failure it returns false and never sets a new token — a
parsed response lacking a token overwrites both session fields (clearing
any old token), while a missing password or a transport/parse failure
leaves the prior state untouched, so a client holding no token still
holds none after any failed authenticate. -/
theorem authenticate_spec :
    ∀ (st : ClientState) (pw : Option String) (resp : HttpResult AuthResponse),
      ((authenticate st pw resp).2 = true ↔
        optStrTruthy pw = true ∧
          ∃ r, resp = .ok r ∧ optStrTruthy ((r.created.getD ⟨none, none⟩).token) = true) ∧
      (∀ r, optStrTruthy pw = true → resp = .ok r →
        (authenticate st pw resp).1 =
          ⟨(r.created.getD ⟨none, none⟩).token, (r.created.getD ⟨none, none⟩).userId⟩) ∧
      (optStrTruthy pw = false ∨ resp = .err → (authenticate st pw resp).1 = st) ∧
      ((authenticate st pw resp).2 = false → optStrTruthy st.token = false →
        optStrTruthy ((authenticate st pw resp).1).token = false) := by
  intro st pw resp
  cases hpw : optStrTruthy pw <;> cases resp <;>
    simp [authenticate, hpw]
  all_goals intros
  all_goals simp_all

/-- Witness for C2: a fresh client, a resolved password and a complete
login response yield a stored token and user id. -/
theorem authenticate_spec_witness :
    (authenticate ⟨none, none⟩ (some "pw") (.ok ⟨some ⟨some "tok", some "u5"⟩⟩)).1 =
      ⟨some "tok", some "u5"⟩ :=
  (authenticate_spec ⟨none, none⟩ (some "pw")
      (.ok ⟨some ⟨some "tok", some "u5"⟩⟩)).2.1
    ⟨some ⟨some "tok", some "u5"⟩⟩ (by decide) rfl

/-- Counterexample to C5 as stated: `logout` is a remote call of the
client, yet on a transport failure it degrades to `true`, which is not a
typed negative result (false or empty list). -/
theorem logout_degrades_to_true :
    (logout ⟨some "t", some "u"⟩ .err).2 = true ∧
    (logout ⟨some "t", some "u"⟩ .err).2 ≠ false := by
  decide

/-- Claim C5 (amended): every remote call of the client catches transport
failures locally rather than propagating them; `get_port_forwards`
degrades to the empty list (so its result cannot distinguish no rules
from a failed request), `authenticate`, `add_port_forward` and the remove
operations degrade to false — while `logout` degrades to true. -/
theorem transport_failure_degrades :
    ∀ (st : ClientState) (pw tok : Option String) (rule : PortForwardingRule)
      (lr : HttpResult Envelope) (p : Int) (nm : String),
      optStrTruthy tok = true →
      (authenticate st pw .err).2 = false ∧
      get_port_forwards tok .err = .ok [] ∧
      add_port_forward tok rule .err = .ok false ∧
      (∃ pl, remove_port_forward_by_port tok lr p .err = .ok (false, pl)) ∧
      (∃ pl, remove_port_forward_by_name tok lr nm .err = .ok (false, pl)) ∧
      (logout st .err).2 = true := by
  intro st pw tok rule lr p nm htok
  have hauth : (authenticate st pw .err).2 = false := by
    cases hpw : optStrTruthy pw <;> simp [authenticate, hpw]
  have hget : get_port_forwards tok .err = .ok [] := by
    simp [get_port_forwards, htok]
  have hlist : ∀ lr2 : HttpResult Envelope,
      ∃ rules, get_port_forwards tok lr2 = .ok rules := by
    intro lr2
    cases lr2 <;> simp [get_port_forwards, htok]
  have hdel : ∀ rules : List FormattedRule, ∀ pred : FormattedRule → Bool,
      ∃ pl, (match rules.filter pred with
        | [] => Except.ok (false, none)
        | [r] => delete_port_forward_rule tok r .err
        | _ :: _ :: _ => Except.ok (false, none)) =
          (Except.ok (false, pl) : Except PyError (Bool × Option DeleteEnvelope)) := by
    intro rules pred
    rcases hf : rules.filter pred with _ | ⟨r, _ | ⟨r2, rest⟩⟩ <;>
      simp [delete_port_forward_rule, htok]
  refine ⟨hauth, hget, by simp [add_port_forward, htok], ?_, ?_, ?_⟩
  · obtain ⟨rules, hr⟩ := hlist lr
    obtain ⟨pl, hpl⟩ := hdel rules (fun r => decide (r.externalPort = some p))
    exact ⟨pl, by rw [remove_port_forward_by_port, hr]; exact hpl⟩
  · obtain ⟨rules, hr⟩ := hlist lr
    refine ?_
    rw [remove_port_forward_by_name, hr]
    rcases hf : rules.find? (fun r => decide (r.name = nm)) with _ | r <;>
      simp [hf, delete_port_forward_rule, htok]
  · cases h : optStrTruthy st.token <;> simp [logout, h]

/-- Witness for C5: the degradation at concrete inputs. -/
theorem transport_failure_degrades_witness :
    get_port_forwards (some "t") .err = .ok [] :=
  (transport_failure_degrades ⟨none, none⟩ none (some "t")
      ⟨"n", "a", 1, 2, "tcp", true⟩ .err 1 "n" (by decide)).2.1

/-- Claim C10: with no truthy token held, every authenticated operation
surfaces the `ValueError` raised by `_get_auth_headers` to the caller —
the broad transport-failure handlers do not catch it, so the empty-list /
false degradation does not apply to unauthenticated calls. -/
theorem not_authenticated_propagates :
    ∀ (tok : Option String), optStrTruthy tok = false →
      ∀ (lr : HttpResult Envelope) (dr ar : HttpResult Unit)
        (rule : PortForwardingRule) (p : Int) (nm : String),
        get_port_forwards tok lr = .error .notAuthenticated ∧
        add_port_forward tok rule ar = .error .notAuthenticated ∧
        remove_port_forward_by_port tok lr p dr = .error .notAuthenticated ∧
        remove_port_forward_by_name tok lr nm dr = .error .notAuthenticated ∧
        remove_port_forward tok lr nm dr = .error .notAuthenticated := by
  intro tok htok lr dr ar rule p nm
  have hget : get_port_forwards tok lr = .error .notAuthenticated := by
    simp [get_port_forwards, htok]
  refine ⟨hget, by simp [add_port_forward, htok], ?_, ?_, ?_⟩
  · rw [remove_port_forward_by_port, hget]
  · rw [remove_port_forward_by_name, hget]
  · rw [remove_port_forward, remove_port_forward_by_name, hget]

/-- Witness for C10: a never-authenticated client (token `None`). -/
theorem not_authenticated_propagates_witness :
    get_port_forwards none .err = .error .notAuthenticated :=
  (not_authenticated_propagates none (by decide) .err .err .err
      ⟨"n", "a", 1, 2, "tcp", true⟩ 1 "n").1

/-- Claim C6: password resolution precedence.  The constructor accepts no
password (`initClient` takes only a host), so the explicit-value source
can never yield; among the sources that exist, the environment variable
`SAGEMCOM_MODEM_PASSWORD` takes precedence over the 1Password lookup,
whose item name comes from `SAGEMCOM_ONEPASSWORD_ITEM` with default
`"Ziggo"`; and when every source fails, `authenticate` returns false
without touching the session state. -/
theorem get_password_precedence :
    ∀ (env : String → Option String) (cli : String → CliResult),
      (∀ v, env "SAGEMCOM_MODEM_PASSWORD" = some v → get_password env cli = some v) ∧
      (env "SAGEMCOM_MODEM_PASSWORD" = none →
        get_password env cli =
          get_password_from_1password (cli ((env "SAGEMCOM_ONEPASSWORD_ITEM").getD "Ziggo"))) ∧
      (get_password env cli = none →
        ∀ (st : ClientState) (resp : HttpResult AuthResponse),
          authenticate st (get_password env cli) resp = (st, false)) := by
  intro env cli
  refine ⟨?_, ?_, ?_⟩
  · intro v hv
    simp [get_password, hv]
  · intro hnone
    simp [get_password, hnone]
  · intro hnone st resp
    rw [hnone]
    simp [authenticate, optStrTruthy]

/-- Witness for C6: with the environment variable set, its value wins
even when the 1Password lookup would succeed; with neither source
available, authenticate fails without a request. -/
theorem get_password_precedence_witness :
    get_password (fun k => if k = "SAGEMCOM_MODEM_PASSWORD" then some "envpw" else none)
        (fun _ => .ok (some "oppw")) = some "envpw" ∧
    authenticate ⟨none, none⟩ (get_password (fun _ => none) (fun _ => .err))
        (.ok ⟨some ⟨some "tok", some "u"⟩⟩) = (⟨none, none⟩, false) :=
  ⟨(get_password_precedence (fun k => if k = "SAGEMCOM_MODEM_PASSWORD" then some "envpw" else none)
        (fun _ => .ok (some "oppw"))).1 "envpw" (by simp),
   (get_password_precedence (fun _ => none) (fun _ => .err)).2.2 rfl
      ⟨none, none⟩ (.ok ⟨some ⟨some "tok", some "u"⟩⟩)⟩

/-- Claim C4: `get_port_forwards` maps each wire rule item (one carrying a
`rule` object) to the normalized record built from its id, the fabricated
name, the local address, the start ports, the protocol with `'_'`
rewritten to `'/'`, and the enable flag; in particular the two-rule
envelope with ids 1 and 2 and protocols `tcp` and `tcp_udp` yields records
with protocols `tcp` and `tcp/udp` and matching enabled flags. -/
theorem get_port_forwards_normalizes :
    (∀ (tok : Option String), optStrTruthy tok = true →
      ∀ (env : Envelope) (it : WireItem) (rd : WireRule),
        it ∈ env.rulesList → it.rule = some rd →
        ∃ out, get_port_forwards tok (.ok env) = .ok out ∧
          ({ id := it.id
             name := "Rule " ++ idText it.id
             localAddress := rd.localAddress
             localPort := rd.localStartPort
             externalPort := rd.externalStartPort
             protocol := pyReplaceChar '_' '/' (rd.protocol.getD "")
             enabled := rd.enable.getD false } : FormattedRule) ∈ out) ∧
    get_port_forwards (some "t")
        (.ok (.nested
          [⟨some 1, some ⟨some "192.168.178.10", some 80, some 80, some 8080,
              some 8080, some "tcp", some true⟩⟩,
           ⟨some 2, some ⟨some "192.168.178.11", some 22, some 22, some 2222,
              some 2222, some "tcp_udp", some false⟩⟩])) =
      .ok [⟨some 1, "Rule 1", some "192.168.178.10", some 80, some 8080, "tcp", true⟩,
           ⟨some 2, "Rule 2", some "192.168.178.11", some 22, some 2222, "tcp/udp", false⟩] := by
  refine ⟨?_, rfl⟩
  intro tok htok env it rd hmem hrd
  refine ⟨env.rulesList.filterMap formatItem, by simp [get_port_forwards, htok], ?_⟩
  exact List.mem_filterMap.mpr ⟨it, hmem, by simp [formatItem, hrd]⟩

/-- Witness for C4: the general mapping applied to the first item of the
two-rule envelope. -/
theorem get_port_forwards_normalizes_witness :
    ∃ out,
      get_port_forwards (some "t")
          (.ok (.nested
            [⟨some 1, some ⟨some "192.168.178.10", some 80, some 80, some 8080,
                some 8080, some "tcp", some true⟩⟩])) = .ok out ∧
      ({ id := some 1
         name := "Rule " ++ idText (some 1)
         localAddress := some "192.168.178.10"
         localPort := some 80
         externalPort := some 8080
         protocol := pyReplaceChar '_' '/' ((some "tcp").getD "")
         enabled := (some true).getD false } : FormattedRule) ∈ out :=
  get_port_forwards_normalizes.1 (some "t") (by decide)
    (.nested [⟨some 1, some ⟨some "192.168.178.10", some 80, some 80, some 8080,
        some 8080, some "tcp", some true⟩⟩])
    ⟨some 1, some ⟨some "192.168.178.10", some 80, some 80, some 8080,
        some 8080, some "tcp", some true⟩⟩
    ⟨some "192.168.178.10", some 80, some 80, some 8080, some 8080,
        some "tcp", some true⟩
    (by simp [Envelope.rulesList]) rfl

/-- Claim C3: serializing a logical rule with a protocol in the
three-value enum and re-parsing the wire item through the
list-normalization path of `get_port_forwards` yields a normalized record
with the same local port, external port and enabled flag and the protocol
with `'_'` replaced by `'/'`; the wire payload duplicates each port into
an equal start/end pair. -/
theorem to_rest_payload_round_trip :
    ∀ r : PortForwardingRule,
      r.protocol = "tcp" ∨ r.protocol = "udp" ∨ r.protocol = "tcp_udp" →
      get_port_forwards (some "t") (.ok (.nested [⟨none, some r.to_rest_payload⟩])) =
        .ok [⟨none, "Rule Unknown", some r.local_address, some r.local_port,
              some r.external_port, pyReplaceChar '_' '/' r.protocol, r.enabled⟩] ∧
      r.to_rest_payload.localStartPort = some r.local_port ∧
      r.to_rest_payload.localEndPort = some r.local_port ∧
      r.to_rest_payload.externalStartPort = some r.external_port ∧
      r.to_rest_payload.externalEndPort = some r.external_port := by
  intro r hp
  refine ⟨?_, rfl, rfl, rfl, rfl⟩
  obtain ⟨n, la, lp, ep, pr, en⟩ := r
  rcases hp with h | h | h <;> (simp only at h; subst h; rfl)

/-- Witness for C3: the round trip at a concrete `tcp_udp` rule. -/
theorem to_rest_payload_round_trip_witness :
    get_port_forwards (some "t")
        (.ok (.nested [⟨none,
          some (PortForwardingRule.to_rest_payload ⟨"w", "192.168.178.20", 3000, 4000, "tcp_udp", true⟩)⟩])) =
      .ok [⟨none, "Rule Unknown", some "192.168.178.20", some 3000, some 4000,
            pyReplaceChar '_' '/' "tcp_udp", true⟩] :=
  (to_rest_payload_round_trip ⟨"w", "192.168.178.20", 3000, 4000, "tcp_udp", true⟩
    (by decide)).1

/-- Claim C1: `remove_port_forward_by_port` on the normalized rule list
fails without issuing a DELETE when zero rules match the external port,
fails without issuing a DELETE when two or more match, and on exactly one
match issues one DELETE whose embedded rule mirrors the matched record
translated back to wire form (protocol `'/'` to `'_'`, both external
ports equal to the matched port, both local ports equal to the record's
local port, `readOnly` false), wrapped in the list envelope, succeeding
iff the DELETE succeeds. -/
theorem remove_port_forward_by_port_spec :
    ∀ (tok : Option String) (env : Envelope) (rules : List FormattedRule)
      (p : Int) (dresp : HttpResult Unit),
      optStrTruthy tok = true →
      get_port_forwards tok (.ok env) = .ok rules →
      ((rules.filter (fun r => decide (r.externalPort = some p))).length = 0 →
        remove_port_forward_by_port tok (.ok env) p dresp = .ok (false, none)) ∧
      (2 ≤ (rules.filter (fun r => decide (r.externalPort = some p))).length →
        remove_port_forward_by_port tok (.ok env) p dresp = .ok (false, none)) ∧
      (∀ r, rules.filter (fun r => decide (r.externalPort = some p)) = [r] →
        remove_port_forward_by_port tok (.ok env) p dresp =
          .ok (dresp.succeeded,
            some ⟨[⟨r.id, ⟨r.enabled, some p, some p, pyReplaceChar '/' '_' r.protocol,
              r.localPort, r.localPort, r.localAddress, false⟩⟩]⟩)) := by
  intro tok env rules p dresp htok hrules
  refine ⟨?_, ?_, ?_⟩
  · intro hlen
    have hf : rules.filter (fun r => decide (r.externalPort = some p)) = [] :=
      List.length_eq_zero.mp hlen
    simp [remove_port_forward_by_port, hrules, hf]
  · intro hlen
    rcases hf : rules.filter (fun r => decide (r.externalPort = some p)) with
      _ | ⟨a, _ | ⟨b, l⟩⟩
    · rw [hf] at hlen; simp at hlen
    · rw [hf] at hlen; simp at hlen
    · simp [remove_port_forward_by_port, hrules, hf]
  · intro r hf
    have hr : r ∈ rules.filter (fun r => decide (r.externalPort = some p)) := by
      rw [hf]; exact List.mem_singleton.mpr rfl
    have hep : r.externalPort = some p := of_decide_eq_true (List.mem_filter.mp hr).2
    cases dresp <;>
      simp [remove_port_forward_by_port, hrules, hf, delete_port_forward_rule,
        htok, deleteItemOf, HttpResult.succeeded, hep]

/-- Witness for C1: a one-rule list matching port 8080 and a successful
DELETE, reproducing the payload asserted by the repository's unit test. -/
theorem remove_port_forward_by_port_spec_witness :
    remove_port_forward_by_port (some "t")
        (.ok (.nested [⟨some 1, some ⟨some "192.168.178.10", some 80, some 80,
            some 8080, some 8080, some "tcp", some true⟩⟩])) 8080 (.ok ()) =
      .ok (true, some ⟨[⟨some 1, ⟨true, some 8080, some 8080, "tcp",
            some 80, some 80, some "192.168.178.10", false⟩⟩]⟩) :=
  (remove_port_forward_by_port_spec (some "t")
      (.nested [⟨some 1, some ⟨some "192.168.178.10", some 80, some 80,
          some 8080, some 8080, some "tcp", some true⟩⟩])
      [⟨some 1, "Rule 1", some "192.168.178.10", some 80, some 8080, "tcp", true⟩]
      8080 (.ok ()) (by decide) rfl).2.2
    ⟨some 1, "Rule 1", some "192.168.178.10", some 80, some 8080, "tcp", true⟩
    (by decide)

end Sagemcom
